/-
Verification of the nghq HTTP/QUIC session engine core (src/lib/nghq.c)
against its natural-language specification.

The definitions below are a shallow embedding of the C code: machine
integers become Nat with explicit `% 2^64` where uint64_t overflow can
matter, byte buffers become `List Nat`, linked buffer chains become
`List IOBuf`, and the out-of-scope collaborators (ngtcp2 transport calls,
frame codec, user callbacks) become oracle parameters recording their
outcomes.  Each definition is translated from the C source; the few
helpers whose sources are not part of the reviewed tree (io_buf list
primitives, the varint codec) are modelled from the spec and say so in
their doc comments.
-/
import Mathlib

namespace Nghq

/-- The set of nghq return codes used by the functions under review
(nghq_error in nghq.h).  Codes that the modelled paths never produce are
omitted. -/
inductive RetCode
  | OK
  | NO_MORE_DATA
  | SESSION_BLOCKED
  | ERROR
  | EOF_
  | INTERNAL_ERROR
  | OUT_OF_MEMORY
  | CLIENT_ONLY
  | SERVER_ONLY
  | PUSH_LIMIT_REACHED
  | INVALID_PUSH_LIMIT
  | HTTP_MALFORMED_FRAME
  | REQUEST_CLOSED
  | TRAILERS_NOT_PROMISED
  | TOO_MANY_REQUESTS
  | TRANSPORT_ERROR
deriving Repr, DecidableEq

/-- Session roles (nghq_role). -/
inductive Role
  | CLIENT
  | SERVER
deriving Repr, DecidableEq

/-- Session modes (nghq_mode). -/
inductive Mode
  | UNICAST
  | MULTICAST
deriving Repr, DecidableEq

/-- 2^64, the modulus of the C uint64_t fields. -/
def U64 : Nat := 2 ^ 64

/-- One entry of an nghq_io_buf chain.  `buf` holds the byte contents
(`buf_len` is its length), `pos` is the number of bytes already consumed
(`send_pos - buf` in the C struct, with `remaining = buf_len - pos`),
`offset` is the stream offset of `buf[0]` and `complete` is the fin
flag. -/
structure IOBuf where
  buf : List Nat
  pos : Nat
  offset : Nat
  complete : Bool
deriving Repr, DecidableEq

/-- `buf_len` of an I/O buffer. -/
def IOBuf.bufLen (b : IOBuf) : Nat := b.buf.length

/-- `remaining` of an I/O buffer: the unconsumed tail length. -/
def IOBuf.remaining (b : IOBuf) : Nat := b.bufLen - b.pos

/-- _trim_and_append (nghq.c): grow a buffer by `data`, first dropping any
already-consumed prefix.  In C the function can fail on allocation; the
embedding assumes allocation succeeds (allocation failure leaves the claim
scenarios unchanged, the caller propagates OUT_OF_MEMORY). -/
def trimAndAppend (b : IOBuf) (data : List Nat) : IOBuf :=
  if b.pos = 0 then
    { b with buf := b.buf ++ data }
  else
    { buf := b.buf.drop b.pos ++ data
      pos := 0
      offset := b.offset + b.pos
      complete := b.complete }

/-- The merge-with-next step at the end of _nghq_insert_recv_stream_data:
if the (updated or inserted) buffer `b` now touches or overlaps the next
buffer in the chain, append the next buffer's bytes past the overlap and
pop it.  The C code computes `(*next)->buf_len - overlap` in size_t; when
`overlap > buf_len` (the new data extends past the end of the next
buffer) the subtraction wraps around and the following memcpy reads far
out of bounds — that undefined behaviour is modelled as `none`. -/
def mergeNext (b : IOBuf) (rest : List IOBuf) : Option (List IOBuf) :=
  match rest with
  | [] => some [b]
  | n :: rest' =>
    if n.offset ≤ b.offset + b.bufLen then
      let overlap := b.offset + b.bufLen - n.offset
      if n.bufLen < overlap then
        none
      else
        let b' := trimAndAppend b (n.buf.drop overlap)
        some ({ b' with complete := b'.complete || n.complete } :: rest')
    else
      some (b :: rest)

/-- _nghq_insert_recv_stream_data (nghq.c): place `data` arriving at
stream offset `off` (fin flag `eos`) into the stream's sorted receive
buffer chain.  Walks past buffers that end strictly before `off`; then
either inserts a fresh buffer (when the chain is exhausted or the next
buffer starts after `off`) or appends the non-overlapping tail of the new
data to the buffer it touches; finally merges with the single following
buffer if touching or overlapping.  `none` models the out-of-bounds merge
described at `mergeNext`. -/
def insertRecvStreamData (bufs : List IOBuf) (data : List Nat) (off : Nat)
    (eos : Bool) : Option (List IOBuf) :=
  match bufs with
  | [] =>
    mergeNext { buf := data, pos := 0, offset := off, complete := eos } []
  | b :: rest =>
    if b.offset + b.bufLen < off then
      (insertRecvStreamData rest data off eos).map (b :: ·)
    else if off < b.offset then
      mergeNext { buf := data, pos := 0, offset := off, complete := eos }
        (b :: rest)
    else
      let endOverlap := b.offset + b.bufLen - off
      if data.length ≤ endOverlap then
        some (b :: rest)
      else
        let b' := trimAndAppend b (data.drop endOverlap)
        mergeNext { b' with complete := b'.complete || eos } rest

/-- The receive-chain invariant claimed by the spec: buffers sorted by
offset, pairwise non-overlapping, and no two adjacent buffers touch
(every adjacent pair is separated by a gap). -/
def recvChainOk : List IOBuf → Bool
  | [] => true
  | [_] => true
  | a :: b :: rest =>
    decide (a.offset + a.bufLen < b.offset) && recvChainOk (b :: rest)

/-- Sanity check (spec reassembly scenario 3): pushing [0,40), [30,70) and
[60,98) collapses the chain to the single span [0,98). -/
theorem overlapping_retransmit_collapses :
    ((insertRecvStreamData [] (List.replicate 40 1) 0 false).bind
      (fun l => insertRecvStreamData l (List.replicate 40 2) 30 false)).bind
      (fun l => insertRecvStreamData l (List.replicate 38 3) 60 true) =
    some [{ buf := List.replicate 40 1 ++ List.replicate 30 2 ++
                   List.replicate 28 3,
            pos := 0, offset := 0, complete := true }] := by
  decide

/-- C1.  The claimed invariant — after every _nghq_insert_recv_stream_data
the receive chain is sorted, non-overlapping and seam-free for arbitrary
offsets, lengths and overlaps — fails on the code: starting from the
well-formed chain {[10,20), [30,40)} (built by two ordinary insertions),
delivering the range [0,100) makes the single merge-with-next step compute
`next->buf_len - overlap` with overlap 90 > buf_len 10; the size_t
subtraction wraps and the memcpy reads out of bounds (modelled as `none`),
instead of producing a merged well-formed chain. -/
theorem insert_recv_spanning_range_out_of_bounds :
    insertRecvStreamData [] (List.replicate 10 1) 10 false =
      some [{ buf := List.replicate 10 1, pos := 0, offset := 10,
              complete := false }] ∧
    insertRecvStreamData
      [{ buf := List.replicate 10 1, pos := 0, offset := 10,
         complete := false }] (List.replicate 10 2) 30 false =
      some [{ buf := List.replicate 10 1, pos := 0, offset := 10,
              complete := false },
            { buf := List.replicate 10 2, pos := 0, offset := 30,
              complete := false }] ∧
    recvChainOk
      [{ buf := List.replicate 10 1, pos := 0, offset := 10,
         complete := false },
       { buf := List.replicate 10 2, pos := 0, offset := 30,
         complete := false }] = true ∧
    insertRecvStreamData
      [{ buf := List.replicate 10 1, pos := 0, offset := 10,
         complete := false },
       { buf := List.replicate 10 2, pos := 0, offset := 30,
         complete := false }] (List.replicate 100 3) 0 false = none := by
  refine ⟨by decide, by decide, by decide, by decide⟩

/-! ## Stream state machine (nghq_stream, §4.2 of the spec) -/

/-- The five stream states (nghq_stream_state), shared by the send and
receive halves. -/
inductive StreamState
  | OPEN
  | HDRS
  | BODY
  | TRAILERS
  | DONE
deriving Repr, DecidableEq

/-- Numeric value of a state, matching the C enum order used by the
`send_state > STATE_BODY` style comparisons. -/
def StreamState.toNat : StreamState → Nat
  | .OPEN => 0
  | .HDRS => 1
  | .BODY => 2
  | .TRAILERS => 3
  | .DONE => 4

/-- `NGHQ_STREAM_ID_MAP_NOT_FOUND`, the uint64 sentinel stored in fresh
streams' `stream_id` and `push_id` fields. -/
def STREAM_ID_NONE : Nat := U64 - 1

/-- The per-stream state touched by the modelled operations: identifiers,
the two state-machine halves, the TRAILERS_PROMISED flag and the send
buffer chain. -/
structure StreamRec where
  streamId : Nat
  pushId : Nat
  userData : Nat
  sendState : StreamState
  recvState : StreamState
  trailersPromised : Bool
  sendBuf : List IOBuf
deriving Repr, DecidableEq

/-- nghq_stream_init (nghq.c): a fresh stream.  The C code also sets the
STARTED flag, a zero status, and a self-referential unique `user_data`
pointer; callers of the modelled operations overwrite `user_data`
immediately, so it is initialised to 0 here. -/
def streamInit : StreamRec :=
  { streamId := STREAM_ID_NONE
    pushId := STREAM_ID_NONE
    userData := 0
    sendState := .OPEN
    recvState := .OPEN
    trailersPromised := false
    sendBuf := [] }

/-- The receive-state switch at the top of _nghq_stream_headers_frame
(nghq.c): OPEN becomes HDRS, BODY falls through into TRAILERS, DONE
rejects the frame with REQUEST_CLOSED.  The rest of the function (header
parsing and delivery callbacks) does not touch the stream state. -/
def headersFrameRecvStep (s : StreamRec) : StreamRec × Option RetCode :=
  match s.recvState with
  | .OPEN => ({ s with recvState := .HDRS }, none)
  | .HDRS => (s, none)
  | .BODY => ({ s with recvState := .TRAILERS }, none)
  | .TRAILERS => (s, none)
  | .DONE => (s, some .REQUEST_CLOSED)

/-- The send-state switch of the existing-stream branch of
nghq_feed_headers (nghq.c), including the _check_for_trailers side effect:
`hasTrailerHdr` records whether the fed header block contains a field
named `trailer`. -/
def feedHeadersSendSwitch (s : StreamRec) (hasTrailerHdr : Bool) :
    StreamRec × Option RetCode :=
  match s.sendState with
  | .OPEN =>
    ({ s with trailersPromised := s.trailersPromised || hasTrailerHdr
              sendState := .HDRS }, none)
  | .HDRS =>
    ({ s with trailersPromised := s.trailersPromised || hasTrailerHdr }, none)
  | .BODY =>
    if s.trailersPromised then ({ s with sendState := .TRAILERS }, none)
    else (s, some .TRAILERS_NOT_PROMISED)
  | .TRAILERS => (s, none)
  | .DONE => (s, some .REQUEST_CLOSED)

/-- C2 counterexample.  The claim — a HEADERS frame received while
recv_state is BODY moves the stream to TRAILERS only when
TRAILERS_PROMISED is set, and otherwise resets the stream with
TRAILERS_NOT_PROMISED — is false: _nghq_stream_headers_frame never
consults the flag on the receive side.  At the concrete stream in BODY
with the flag clear, the step still moves to TRAILERS and reports no
error at all. -/
theorem recv_headers_in_body_ignores_promise_flag :
    ¬ (∀ s : StreamRec, s.recvState = .BODY → s.trailersPromised = false →
        (headersFrameRecvStep s).2 = some RetCode.TRAILERS_NOT_PROMISED) := by
  intro h
  have := h { streamInit with recvState := .BODY } rfl rfl
  simp [headersFrameRecvStep, streamInit] at this

/-- C2 (amended).  On the receive side a HEADERS frame arriving in BODY
always moves the stream to TRAILERS, whatever the TRAILERS_PROMISED flag;
the TRAILERS_NOT_PROMISED rejection (with unchanged state) exists only on
the send side, in nghq_feed_headers. -/
theorem recv_headers_in_body_always_trailers :
    (∀ s : StreamRec, s.recvState = .BODY →
      headersFrameRecvStep s = ({ s with recvState := .TRAILERS }, none)) ∧
    (∀ (s : StreamRec) (ht : Bool), s.sendState = .BODY →
      s.trailersPromised = false →
      feedHeadersSendSwitch s ht = (s, some .TRAILERS_NOT_PROMISED)) := by
  constructor
  · intro s hs
    unfold headersFrameRecvStep
    rw [hs]
  · intro s ht hs hp
    unfold feedHeadersSendSwitch
    rw [hs, hp]
    simp

/-- Witness for C2's amended theorem at a concrete stream in BODY with the
flag clear, on both halves. -/
theorem recv_headers_in_body_always_trailers_witness :
    headersFrameRecvStep { streamInit with recvState := .BODY } =
      ({ streamInit with recvState := .TRAILERS }, none) ∧
    feedHeadersSendSwitch { streamInit with sendState := .BODY } true =
      ({ streamInit with sendState := .BODY },
        some .TRAILERS_NOT_PROMISED) :=
  ⟨recv_headers_in_body_always_trailers.1
      { streamInit with recvState := .BODY } rfl,
   recv_headers_in_body_always_trailers.2
      { streamInit with sendState := .BODY } true rfl rfl⟩

/-! ## Push-promise lifecycle (nghq_submit_push_promise,
nghq_set_max_promises, _nghq_stream_max_push_id_frame) -/

/-- The slice of the session state touched by the push-promise operations:
role, mode, the two uint64 counters and the set of push ids present in
the `promises` table. -/
structure PushState where
  role : Role
  mode : Mode
  nextPushPromise : Nat
  maxPushPromise : Nat
  promises : List Nat
deriving Repr, DecidableEq

/-- The push counters at session creation (_nghq_session_new_common sets
both to 0 and the promises table empty). -/
def initPushState (r : Role) (m : Mode) : PushState :=
  { role := r, mode := m, nextPushPromise := 0, maxPushPromise := 0,
    promises := [] }

/-- Outcomes of the external calls made by nghq_submit_push_promise:
frame creation (frame_creator), stream allocation (calloc), the unicast
lookup of the initiating request stream, and queueing the encoded frame
(io_buf allocation). -/
structure PushOracle where
  createFrameOk : Bool
  streamAllocOk : Bool
  initStreamFound : Bool
  ioBufOk : Bool
deriving Repr, DecidableEq

/-- nghq_submit_push_promise (nghq.c): server-only; rejects with
PUSH_LIMIT_REACHED when next_push_promise has reached max_push_promise;
otherwise allocates the next push id (incrementing the uint64 counter),
records the promised stream in `promises`, and queues the encoded
PUSH_PROMISE frame on the initiating stream.  On the late io-buffer
failure the promise is removed again but the counter stays incremented,
exactly as in the C error path. -/
def submitPushPromise (s : PushState) (o : PushOracle) :
    RetCode × PushState :=
  if s.role ≠ .SERVER then (.SERVER_ONLY, s)
  else if s.maxPushPromise ≤ s.nextPushPromise then (.PUSH_LIMIT_REACHED, s)
  else if s.mode ≠ .MULTICAST ∧ o.initStreamFound = false then (.ERROR, s)
  else if o.createFrameOk = false then (.ERROR, s)
  else if o.streamAllocOk = false then (.OUT_OF_MEMORY, s)
  else
    let pushId := s.nextPushPromise
    let s' := { s with nextPushPromise := (s.nextPushPromise + 1) % U64
                       promises := s.promises ++ [pushId] }
    if o.ioBufOk then (.OK, s')
    else (.ERROR, { s' with promises := s'.promises.erase pushId })

/-- nghq_set_max_promises (nghq.c): client-only; refuses to move the
ceiling below the current value (INVALID_PUSH_LIMIT on uint64 wrap-around
of `next + max_push`), then sets max_push_promise := next + max_push and
queues a MAX_PUSH_ID frame on the client control stream.  `frameOk` and
`queueOk` are the outcomes of frame creation and of
nghq_queue_send_frame. -/
def setMaxPromises (s : PushState) (maxPush : Nat)
    (frameOk queueOk : Bool) : RetCode × PushState :=
  if s.role ≠ .CLIENT then (.CLIENT_ONLY, s)
  else if (s.nextPushPromise + maxPush) % U64 < s.maxPushPromise then
    (.INVALID_PUSH_LIMIT, s)
  else
    let s' := { s with maxPushPromise := (s.nextPushPromise + maxPush) % U64 }
    if !frameOk then (.ERROR, s')
    else if queueOk then (.OK, s') else (.INTERNAL_ERROR, s')

/-- _nghq_stream_max_push_id_frame (nghq.c): processing a received
MAX_PUSH_ID frame carrying `maxPushId`.  Only a server accepts it, and
only if it does not lower the current ceiling. -/
def maxPushIdFrameStep (s : PushState) (maxPushId : Nat) :
    RetCode × PushState :=
  if s.role ≠ .SERVER then (.HTTP_MALFORMED_FRAME, s)
  else if maxPushId < s.maxPushPromise then (.HTTP_MALFORMED_FRAME, s)
  else (.OK, { s with maxPushPromise := maxPushId })

/-- The claimed counter invariant. -/
def pushInv (s : PushState) : Prop :=
  s.nextPushPromise ≤ s.maxPushPromise

instance (s : PushState) : Decidable (pushInv s) := by
  unfold pushInv
  infer_instance

/-- C3.  next_push_promise ≤ max_push_promise holds at session creation
and is preserved by nghq_submit_push_promise, nghq_set_max_promises and
the MAX_PUSH_ID frame handler (the only operations that write either
counter); nghq_submit_push_promise returns PUSH_LIMIT_REACHED with the
state unchanged whenever the counter has reached the ceiling, increments
next_push_promise by exactly one whenever it succeeds, and
nghq_set_max_promises never moves the ceiling below next_push_promise.
The `< 2^64` hypotheses record that the C fields are uint64 values. -/
theorem push_promise_limit_invariant :
    (∀ (r : Role) (m : Mode), pushInv (initPushState r m)) ∧
    (∀ (s : PushState) (o : PushOracle), pushInv s →
      s.maxPushPromise < U64 → pushInv (submitPushPromise s o).2) ∧
    (∀ (s : PushState) (o : PushOracle), s.role = .SERVER →
      s.maxPushPromise ≤ s.nextPushPromise →
      submitPushPromise s o = (.PUSH_LIMIT_REACHED, s)) ∧
    (∀ (s : PushState) (o : PushOracle), s.maxPushPromise < U64 →
      (submitPushPromise s o).1 = .OK →
      (submitPushPromise s o).2.nextPushPromise = s.nextPushPromise + 1) ∧
    (∀ (s : PushState) (maxPush : Nat) (fo qo : Bool), pushInv s →
      pushInv (setMaxPromises s maxPush fo qo).2) ∧
    (∀ (s : PushState) (v : Nat), pushInv s →
      pushInv (maxPushIdFrameStep s v).2) := by
  refine ⟨?_, ?_, ?_, ?_, ?_, ?_⟩
  · intro r m
    simp [initPushState, pushInv]
  · intro s o hinv hmax
    unfold submitPushPromise
    split
    · exact hinv
    · split
      · exact hinv
      · rename_i hlt
        push_neg at hlt
        have h1 : s.nextPushPromise + 1 ≤ s.maxPushPromise := hlt
        have h2 : (s.nextPushPromise + 1) % U64 = s.nextPushPromise + 1 :=
          Nat.mod_eq_of_lt (Nat.lt_of_le_of_lt h1 hmax)
        split
        · exact hinv
        · split
          · exact hinv
          · split
            · exact hinv
            · split <;> simpa [pushInv, h2] using h1
  · intro s o hrole hle
    unfold submitPushPromise
    rw [hrole]
    simp [hle]
  · intro s o hmax hok
    unfold submitPushPromise at hok ⊢
    by_cases h1 : s.role ≠ .SERVER
    · simp [h1] at hok
    · by_cases hle : s.maxPushPromise ≤ s.nextPushPromise
      · simp [h1, hle] at hok
      · have h2 : (s.nextPushPromise + 1) % U64 = s.nextPushPromise + 1 :=
          Nat.mod_eq_of_lt
            (Nat.lt_of_le_of_lt (Nat.not_le.mp hle) hmax)
        by_cases h3 : s.mode ≠ .MULTICAST ∧ o.initStreamFound = false
        · simp [h1, hle, h3] at hok
        · by_cases h4 : o.createFrameOk = false
          · simp [h1, hle, h3, h4] at hok
          · by_cases h5 : o.streamAllocOk = false
            · simp [h1, hle, h3, h4, h5] at hok
            · by_cases h6 : o.ioBufOk = true
              · simp [h1, hle, h3, h4, h5, h6, h2]
              · simp [h1, hle, h3, h4, h5, h6] at hok
  · intro s maxPush fo qo hinv
    unfold setMaxPromises
    split
    · exact hinv
    · split
      · exact hinv
      · rename_i hge
        push_neg at hge
        have : s.nextPushPromise ≤ (s.nextPushPromise + maxPush) % U64 :=
          le_trans hinv hge
        split
        · simpa [pushInv] using this
        · split <;> simpa [pushInv] using this
  · intro s v hinv
    unfold maxPushIdFrameStep
    split
    · exact hinv
    · split
      · exact hinv
      · rename_i hge
        push_neg at hge
        simpa [pushInv] using le_trans hinv hge

/-- Witness for C3 at concrete states: a server at the limit is refused
with no change; a server below the limit succeeds and bumps the counter
by one; the creation state satisfies the invariant and every operation
preserves it there. -/
theorem push_promise_limit_invariant_witness :
    pushInv (initPushState .SERVER .MULTICAST) ∧
    submitPushPromise
      { role := .SERVER, mode := .MULTICAST, nextPushPromise := 3,
        maxPushPromise := 3, promises := [] }
      { createFrameOk := true, streamAllocOk := true,
        initStreamFound := true, ioBufOk := true } =
      (.PUSH_LIMIT_REACHED,
        { role := .SERVER, mode := .MULTICAST, nextPushPromise := 3,
          maxPushPromise := 3, promises := [] }) ∧
    (submitPushPromise
      { role := .SERVER, mode := .MULTICAST, nextPushPromise := 3,
        maxPushPromise := 5, promises := [] }
      { createFrameOk := true, streamAllocOk := true,
        initStreamFound := true, ioBufOk := true }).2.nextPushPromise = 4 ∧
    pushInv (setMaxPromises
      { role := .CLIENT, mode := .UNICAST, nextPushPromise := 2,
        maxPushPromise := 2, promises := [] } 7 true true).2 ∧
    pushInv (maxPushIdFrameStep
      { role := .SERVER, mode := .UNICAST, nextPushPromise := 2,
        maxPushPromise := 4, promises := [] } 9).2 := by
  refine ⟨push_promise_limit_invariant.1 .SERVER .MULTICAST,
    push_promise_limit_invariant.2.2.1 _ _ rfl (by decide),
    push_promise_limit_invariant.2.2.2.1 _ _ (by decide) (by decide),
    push_promise_limit_invariant.2.2.2.2.1 _ 7 true true (by decide),
    push_promise_limit_invariant.2.2.2.2.2 _ 9 (by decide)⟩

/-- C10.  Processing a received MAX_PUSH_ID frame never decreases
max_push_promise: a non-server session or a value below the current
ceiling is rejected with HTTP_MALFORMED_FRAME and no change; otherwise
the ceiling is set to the frame's value, which is at least the old
value. -/
theorem max_push_id_frame_monotone :
    (∀ (s : PushState) (v : Nat), s.role ≠ .SERVER →
      maxPushIdFrameStep s v = (.HTTP_MALFORMED_FRAME, s)) ∧
    (∀ (s : PushState) (v : Nat), v < s.maxPushPromise →
      maxPushIdFrameStep s v = (.HTTP_MALFORMED_FRAME, s)) ∧
    (∀ (s : PushState) (v : Nat), s.role = .SERVER →
      s.maxPushPromise ≤ v →
      maxPushIdFrameStep s v =
        (.OK, { s with maxPushPromise := v })) ∧
    (∀ (s : PushState) (v : Nat),
      s.maxPushPromise ≤ (maxPushIdFrameStep s v).2.maxPushPromise) := by
  refine ⟨?_, ?_, ?_, ?_⟩
  · intro s v hrole
    simp [maxPushIdFrameStep, hrole]
  · intro s v hlt
    unfold maxPushIdFrameStep
    split
    · rfl
    · simp [hlt]
  · intro s v hrole hle
    simp [maxPushIdFrameStep, hrole, Nat.not_lt.mpr hle]
  · intro s v
    unfold maxPushIdFrameStep
    split
    · simp
    · split
      · simp
      · rename_i hge
        push_neg at hge
        simpa using hge

/-- Witness for C10 at concrete sessions: a client is refused, a lowered
value is refused, and a raise to 9 is applied. -/
theorem max_push_id_frame_monotone_witness :
    maxPushIdFrameStep
      { role := .CLIENT, mode := .UNICAST, nextPushPromise := 0,
        maxPushPromise := 2, promises := [] } 5 =
      (.HTTP_MALFORMED_FRAME,
        { role := .CLIENT, mode := .UNICAST, nextPushPromise := 0,
          maxPushPromise := 2, promises := [] }) ∧
    maxPushIdFrameStep
      { role := .SERVER, mode := .UNICAST, nextPushPromise := 0,
        maxPushPromise := 4, promises := [] } 2 =
      (.HTTP_MALFORMED_FRAME,
        { role := .SERVER, mode := .UNICAST, nextPushPromise := 0,
          maxPushPromise := 4, promises := [] }) ∧
    maxPushIdFrameStep
      { role := .SERVER, mode := .UNICAST, nextPushPromise := 0,
        maxPushPromise := 4, promises := [] } 9 =
      (.OK,
        { role := .SERVER, mode := .UNICAST, nextPushPromise := 0,
          maxPushPromise := 9, promises := [] }) :=
  ⟨max_push_id_frame_monotone.1 _ 5 (by decide),
   max_push_id_frame_monotone.2.1 _ 2 (by decide),
   max_push_id_frame_monotone.2.2.1 _ 9 rfl (by decide)⟩

/-! ## State-machine monotonicity (C6) -/

/-- The operations of nghq.c that write a stream's `send_state` or
`recv_state` after the stream exists:
* `feedHeaders` — the existing-stream switch of nghq_feed_headers;
* `feedPayload` — nghq_feed_payload_data (guard `send_state > STATE_BODY`
  then `send_state = STATE_BODY`);
* `recvHeaders` — _nghq_stream_headers_frame;
* `recvData` — the DATA-frame delivery step of nghq_recv_stream_data
  (hold data in OPEN, move HDRS to BODY);
* `sendFin` — nghq_session_send after writing the fin-marked buffer
  (`send_state = STATE_DONE`);
* `streamEnded` — nghq_stream_ended (both halves to DONE). -/
inductive StreamEvent
  | feedHeaders (hasTrailerHdr : Bool)
  | feedPayload
  | recvHeaders
  | recvData
  | sendFin
  | streamEnded
deriving Repr, DecidableEq

/-- The state effect of one stream operation, with the error code it
returns when it refuses to act (state unchanged in that case). -/
def streamStep (ev : StreamEvent) (s : StreamRec) :
    StreamRec × Option RetCode :=
  match ev with
  | .feedHeaders ht => feedHeadersSendSwitch s ht
  | .feedPayload =>
    if StreamState.BODY.toNat < s.sendState.toNat then
      (s, some .REQUEST_CLOSED)
    else ({ s with sendState := .BODY }, none)
  | .recvHeaders => headersFrameRecvStep s
  | .recvData =>
    if s.recvState = .OPEN then (s, none)
    else if s.recvState = .HDRS then ({ s with recvState := .BODY }, none)
    else (s, none)
  | .sendFin => ({ s with sendState := .DONE }, none)
  | .streamEnded => ({ s with sendState := .DONE, recvState := .DONE }, none)

/-- Run a sequence of stream operations, keeping the state only. -/
def runStreamEvents (evs : List StreamEvent) (s : StreamRec) : StreamRec :=
  evs.foldl (fun st ev => (streamStep ev st).1) s

/-- One operation never moves either half backwards. -/
theorem streamStep_monotone (ev : StreamEvent) (s : StreamRec) :
    s.sendState.toNat ≤ (streamStep ev s).1.sendState.toNat ∧
    s.recvState.toNat ≤ (streamStep ev s).1.recvState.toNat := by
  obtain ⟨sid, pid, ud, ss, rs, tp, sb⟩ := s
  cases ev with
  | feedHeaders ht =>
    cases ss <;> cases tp <;>
      simp [streamStep, feedHeadersSendSwitch, StreamState.toNat]
  | feedPayload =>
    cases ss <;> simp [streamStep, StreamState.toNat]
  | recvHeaders =>
    cases rs <;> simp [streamStep, headersFrameRecvStep, StreamState.toNat]
  | recvData =>
    cases rs <;> simp [streamStep, StreamState.toNat]
  | sendFin =>
    cases ss <;> simp [streamStep, StreamState.toNat]
  | streamEnded =>
    cases ss <;> cases rs <;> simp [streamStep, StreamState.toNat]

/-- C6.  Under any sequence of nghq_feed_headers, nghq_feed_payload_data,
received-frame processing and stream termination, a stream's send_state
and recv_state never move backwards with respect to
OPEN < HDRS < BODY < TRAILERS < DONE. -/
theorem stream_states_monotone (evs : List StreamEvent) (s : StreamRec) :
    s.sendState.toNat ≤ (runStreamEvents evs s).sendState.toNat ∧
    s.recvState.toNat ≤ (runStreamEvents evs s).recvState.toNat := by
  induction evs generalizing s with
  | nil => exact ⟨Nat.le_refl _, Nat.le_refl _⟩
  | cons ev rest ih =>
    have h1 := streamStep_monotone ev s
    have h2 := ih (streamStep ev s).1
    exact ⟨Nat.le_trans h1.1 h2.1, Nat.le_trans h1.2 h2.2⟩

/-! ## Timer adapter (_adjust_timer, C8) -/

/-- `UINT64_MAX`, the "never" timestamp. -/
def UINT64_MAX : Nat := U64 - 1

/-- The state a timer slot of the session: the stored target timestamp
and the armed timer handle (if any). -/
structure TimerSlot where
  tstamp : Nat
  timer : Option Nat
deriving Repr, DecidableEq

/-- The observable calls _adjust_timer makes: dispatching the expiry
callback inline, cancelling an armed timer (cancel_timer_callback),
resetting an armed timer (reset_timer_callback) and creating a fresh one
(set_timer_callback). -/
inductive TimerAct
  | dispatched
  | cancelled (handle : Nat)
  | reset (handle : Nat) (fromNow : Nat)
  | setNew (fromNow : Nat)
deriving Repr, DecidableEq

/-- _adjust_timer (nghq.c), reconciling one expiry timestamp against a
timer slot.  `trigger` is the transport's new expiry value, `now` the
current timestamp, `newHandle` the handle set_timer_callback would
return, and `g` the effect the inline callback has on the timer handle
(the two real callbacks, _conn_ack_timeout and _conn_loss_timeout, both
null the handle before anything else).  Returns the updated slot and the
list of calls made, in order. -/
def adjustTimer (trigger now : Nat) (st : TimerSlot) (newHandle : Nat)
    (g : Option Nat → Option Nat) : TimerSlot × List TimerAct :=
  if trigger = st.tstamp then (st, [])
  else if trigger = UINT64_MAX then
    match st.timer with
    | some h => ({ tstamp := trigger, timer := none }, [.cancelled h])
    | none => ({ tstamp := trigger, timer := none }, [])
  else if trigger ≤ now then
    match g st.timer with
    | some h => ({ tstamp := trigger, timer := none },
                 [.dispatched, .cancelled h])
    | none => ({ tstamp := trigger, timer := none }, [.dispatched])
  else
    match st.timer with
    | some h => ({ tstamp := trigger, timer := some h },
                 [.reset h (trigger - now)])
    | none => ({ tstamp := trigger, timer := some newHandle },
               [.setNew (trigger - now)])

/-- C8.  _adjust_timer's reconciliation: equal timestamps do nothing; a
"never" value cancels any armed timer; a value not later than now
dispatches the callback inline and ends with no armed timer (cancelling
an armed one); a future value resets an armed timer or creates a new
one; and in every non-equal case the stored timestamp ends up equal to
the new trigger time. -/
theorem adjust_timer_reconciliation (trigger now : Nat) (st : TimerSlot)
    (newHandle : Nat) (g : Option Nat → Option Nat) :
    (trigger = st.tstamp →
      adjustTimer trigger now st newHandle g = (st, [])) ∧
    (trigger ≠ st.tstamp → trigger = UINT64_MAX →
      (adjustTimer trigger now st newHandle g).1.timer = none ∧
      (adjustTimer trigger now st newHandle g).2 =
        (match st.timer with
         | some h => [.cancelled h]
         | none => [])) ∧
    (trigger ≠ st.tstamp → trigger ≠ UINT64_MAX → trigger ≤ now →
      (adjustTimer trigger now st newHandle g).1.timer = none ∧
      ((adjustTimer trigger now st newHandle g).2).head? =
        some .dispatched) ∧
    (trigger ≠ st.tstamp → trigger ≠ UINT64_MAX → now < trigger →
      (adjustTimer trigger now st newHandle g).1.timer =
        (match st.timer with
         | some h => some h
         | none => some newHandle) ∧
      (adjustTimer trigger now st newHandle g).2 =
        (match st.timer with
         | some h => [.reset h (trigger - now)]
         | none => [.setNew (trigger - now)])) ∧
    (trigger ≠ st.tstamp →
      (adjustTimer trigger now st newHandle g).1.tstamp = trigger) := by
  refine ⟨?_, ?_, ?_, ?_, ?_⟩
  · intro heq
    simp [adjustTimer, heq]
  · intro hne hmax
    subst hmax
    cases htm : st.timer <;> simp [adjustTimer, hne, htm]
  · intro hne hmax hle
    cases hg : g st.timer <;> simp [adjustTimer, hne, hmax, hle, hg]
  · intro hne hmax hlt
    cases htm : st.timer <;>
      simp [adjustTimer, hne, hmax, Nat.not_le.mpr hlt, htm]
  · intro hne
    unfold adjustTimer
    simp only [hne, if_false]
    split
    · cases st.timer <;> simp
    · split
      · cases g st.timer <;> simp
      · cases st.timer <;> simp

/-- Witness for C8 at concrete inputs, exercising all four behaviours
with the real callbacks' handle effect (null the handle). -/
theorem adjust_timer_reconciliation_witness :
    adjustTimer 5 0 { tstamp := 5, timer := some 1 } 9 (fun _ => none) =
      ({ tstamp := 5, timer := some 1 }, []) ∧
    (adjustTimer UINT64_MAX 0 { tstamp := 5, timer := some 1 } 9
      (fun _ => none)).1.timer = none ∧
    (adjustTimer 3 10 { tstamp := 5, timer := some 1 } 9
      (fun _ => none)).2.head? = some .dispatched ∧
    (adjustTimer 20 10 { tstamp := 5, timer := some 1 } 9
      (fun _ => none)).2 = [.reset 1 10] ∧
    (adjustTimer 20 10 { tstamp := 5, timer := some 1 } 9
      (fun _ => none)).1.tstamp = 20 := by
  refine ⟨(adjust_timer_reconciliation 5 0 _ 9 _).1 rfl,
    ((adjust_timer_reconciliation UINT64_MAX 0 _ 9 _).2.1 (by decide)
      rfl).1,
    ((adjust_timer_reconciliation 3 10 _ 9 _).2.2.1 (by decide)
      (by decide) (by decide)).2,
    ((adjust_timer_reconciliation 20 10 _ 9 _).2.2.2.1 (by decide)
      (by decide) (by decide)).2,
    (adjust_timer_reconciliation 20 10 _ 9 _).2.2.2.2 (by decide)⟩

/-! ## Session close and the stream-0 invariant (C9) -/

/-- Look a stream up by id, as nghq_stream_id_map_find does on the
`transfers` table. -/
def findStreamById (streams : List StreamRec) (sid : Nat) :
    Option StreamRec :=
  streams.find? (fun s => s.streamId = sid)

/-- The `transfers` table as _nghq_session_new_common builds it: a single
fresh stream with id 0. -/
def newSessionTransfers : List StreamRec :=
  [{ streamInit with streamId := 0 }]

/-- The branch nghq_session_close takes for the initial request stream on
a multicast server: `goawayPromise` submits the goaway push promise and
response; `nullStreamClose` is the else-branch that passes the null
stream pointer to nghq_stream_close; other sessions skip the block. -/
inductive ClosePath
  | goawayPromise
  | nullStreamClose
  | skipped
deriving Repr, DecidableEq

/-- The initial-request-stream branch selection inside nghq_session_close
(nghq.c): on a multicast server, look up stream id 0
(NGHQ_INIT_REQUEST_STREAM_ID) in `transfers` and branch on the result. -/
def sessionCloseInitPath (mode : Mode) (role : Role)
    (transfers : List StreamRec) : ClosePath :=
  if mode = .MULTICAST ∧ role = .SERVER then
    match findStreamById transfers 0 with
    | some _ => .goawayPromise
    | none => .nullStreamClose
  else .skipped

/-- C9.  Given the invariant that the `transfers` table contains a stream
with id 0 — which holds from session creation — the null-stream branch
of nghq_session_close on a multicast server (the one that would hand a
null pointer to nghq_stream_close) is unreachable. -/
theorem session_close_null_branch_unreachable :
    (findStreamById newSessionTransfers 0).isSome = true ∧
    (∀ (transfers : List StreamRec) (mode : Mode) (role : Role),
      (∃ s ∈ transfers, s.streamId = 0) →
      sessionCloseInitPath mode role transfers ≠ .nullStreamClose) := by
  constructor
  · decide
  · intro transfers mode role hex
    obtain ⟨s, hmem, hid⟩ := hex
    have hfind : (findStreamById transfers 0).isSome = true := by
      rw [Option.isSome_iff_exists]
      have := List.find?_eq_none (l := transfers)
        (p := fun s => decide (s.streamId = 0))
      by_cases h : findStreamById transfers 0 = none
      · exfalso
        unfold findStreamById at h
        exact absurd (by simpa using hid)
          (by simpa using (List.find?_eq_none.mp h) s hmem)
      · exact Option.ne_none_iff_exists'.mp h
    unfold sessionCloseInitPath
    split
    · cases hf : findStreamById transfers 0 with
      | none => rw [hf] at hfind; simp at hfind
      | some s' => simp
    · simp

/-- Witness for C9: a freshly created session's transfers table takes the
goaway branch, not the null-stream branch. -/
theorem session_close_null_branch_unreachable_witness :
    sessionCloseInitPath .MULTICAST .SERVER newSessionTransfers ≠
      .nullStreamClose :=
  session_close_null_branch_unreachable.2 newSessionTransfers .MULTICAST
    .SERVER ⟨{ streamInit with streamId := 0 }, by decide, rfl⟩

/-! ## Fake-ACK packet-number reconstruction (C4) -/

/-- _pkt_num_mask (nghq.c): the mask implied by the width needed to hold
the truncated packet number. -/
def pktNumMask (pktNum : Nat) : Nat :=
  if pktNum < 0x100 then 0xff
  else if pktNum < 0x10000 then 0xffff
  else 0xffffffff

/-- The bit width corresponding to `pktNumMask`. -/
def pktNumWidth (pktNum : Nat) : Nat :=
  if pktNum < 0x100 then 8
  else if pktNum < 0x10000 then 16
  else 32

/-- _calc_pkt_number (nghq.c): reconstruct a full packet number from the
truncated wire value `pktNum`, given the last-seen remote packet number.
`~mask` on a uint64 is `(2^64 - 1) ^^^ mask`, and the `rv += mask + 1`
correction is a uint64 addition, hence the `% 2^64`.  The C function also
stores the result back into `session->last_remote_pkt_num`; callers of
this model use its return value for that. -/
def calcPktNumber (lastRemote pktNum : Nat) : Nat :=
  if pktNum < lastRemote then
    let mask := pktNumMask pktNum
    let rv := pktNum ||| (lastRemote &&& ((U64 - 1) ^^^ mask))
    if rv < lastRemote then (rv + (mask + 1)) % U64 else rv
  else pktNum

/-- Modelled from the spec: _make_varlen_int (util.c, not among the
reviewed sources) writes the QUIC variable-length integer encoding,
selecting a 1/2/4/8-byte big-endian width by the top two bits of the
first byte. -/
def makeVarlenInt (v : Nat) : List Nat :=
  if v < 0x40 then [v]
  else if v < 0x4000 then [0x40 + v / 0x100, v % 0x100]
  else if v < 0x40000000 then
    [0x80 + v / 0x1000000, v / 0x10000 % 0x100, v / 0x100 % 0x100,
     v % 0x100]
  else
    [0xc0 + v / 0x100000000000000 % 0x40, v / 0x1000000000000 % 0x100,
     v / 0x10000000000 % 0x100, v / 0x100000000 % 0x100,
     v / 0x1000000 % 0x100, v / 0x10000 % 0x100, v / 0x100 % 0x100,
     v % 0x100]

/-- Modelled from the spec: the matching variable-length integer decoder
(value and number of bytes consumed). -/
def readVarlenInt (bytes : List Nat) : Option (Nat × Nat) :=
  match bytes with
  | [] => none
  | b :: rest =>
    if b < 0x40 then some (b, 1)
    else if b < 0x80 then
      match rest with
      | r1 :: _ => some ((b - 0x40) * 0x100 + r1, 2)
      | [] => none
    else if b < 0xc0 then
      match rest with
      | r1 :: r2 :: r3 :: _ =>
        some ((b - 0x80) * 0x1000000 + r1 * 0x10000 + r2 * 0x100 + r3, 4)
      | _ => none
    else
      match rest with
      | r1 :: r2 :: r3 :: r4 :: r5 :: r6 :: r7 :: _ =>
        some ((b - 0xc0) * 0x100000000000000 + r1 * 0x1000000000000 +
              r2 * 0x10000000000 + r3 * 0x100000000 + r4 * 0x1000000 +
              r5 * 0x10000 + r6 * 0x100 + r7, 8)
      | _ => none

/-- The session fields nghq_mcast_fake_ack reads: the role decides which
connection id goes into the short header (the fake server handshake scid
for a server, the session id for a client); `remotePktNum` is the single
local packet-number byte; `lastRemotePktNum` feeds _calc_pkt_number. -/
structure FakeAckSession where
  role : Role
  sessionId : List Nat
  fakeServerScid : List Nat
  lastRemotePktNum : Nat
  remotePktNum : Nat
deriving Repr, DecidableEq

/-- nghq_mcast_fake_ack (nghq.c): synthesise the fake short-header ACK
packet for an emitted packet whose truncated packet number is
`hdPktNum`, returning the packet bytes and the reconstructed packet
number (which the C code stores as the new last_remote_pkt_num).  The
packet is the fixed byte 0x40, the connection id, one packet-number
byte, then the ACK frame: frame type 2, Largest Acknowledged, ACK Delay
0, ACK Range Count 0, First ACK Range 0, zero-padded to at least 16
frame bytes. -/
def mcastFakeAck (s : FakeAckSession) (hdPktNum : Nat) :
    List Nat × Nat :=
  let realPktNum := calcPktNumber s.lastRemotePktNum hdPktNum
  let connId := if s.role = .SERVER then s.fakeServerScid else s.sessionId
  let ackBytes := makeVarlenInt 2 ++ makeVarlenInt realPktNum ++
                  makeVarlenInt 0 ++ makeVarlenInt 0 ++ makeVarlenInt 0
  let ackLen := max ackBytes.length 16
  ([0x40] ++ connId ++ [s.remotePktNum % 0x100] ++ ackBytes ++
     List.replicate (ackLen - ackBytes.length) 0,
   realPktNum)

/-- The Largest Acknowledged field of a synthesised fake ACK: skip the
header (fixed byte, connection id, packet-number byte) and the frame-type
varint, then decode the next varint. -/
def fakeAckLargestAcked (s : FakeAckSession) (hdPktNum : Nat) :
    Option Nat :=
  let pkt := (mcastFakeAck s hdPktNum).1
  let connIdLen :=
    (if s.role = .SERVER then s.fakeServerScid else s.sessionId).length
  let ackStart := pkt.drop (2 + connIdLen)
  match readVarlenInt ackStart with
  | none => none
  | some (_, used) =>
    match readVarlenInt (ackStart.drop used) with
    | none => none
    | some (v, _) => some v

/-- The mask is all-ones over the width. -/
theorem pktNumMask_eq_two_pow_width (p : Nat) :
    pktNumMask p = 2 ^ pktNumWidth p - 1 := by
  unfold pktNumMask pktNumWidth
  split
  · rfl
  · split <;> rfl

/-- Clearing the low `w` bits of a uint64 value with the complemented
mask keeps exactly the high bits: `a & ~(2^w - 1) = a / 2^w * 2^w`. -/
theorem and_compl_mask_eq (a w : Nat) (ha : a < 2 ^ 64) (hw : w ≤ 64) :
    a &&& ((U64 - 1) ^^^ (2 ^ w - 1)) = a / 2 ^ w * 2 ^ w := by
  have hshift : a / 2 ^ w * 2 ^ w = (a >>> w) <<< w := by
    rw [Nat.shiftRight_eq_div_pow, Nat.shiftLeft_eq]
  rw [hshift]
  apply Nat.eq_of_testBit_eq
  intro i
  simp only [U64, Nat.testBit_and, Nat.testBit_xor,
    Nat.testBit_two_pow_sub_one, Nat.testBit_shiftLeft,
    Nat.testBit_shiftRight]
  by_cases hi64 : i < 64
  · by_cases hiw : i < w
    · have h1 : ¬ w ≤ i := by omega
      simp [hiw, hi64, h1]
    · have hwi : w ≤ i := by omega
      have h2 : w + (i - w) = i := by omega
      simp [hiw, hi64, hwi, h2]
  · have hbit : a.testBit i = false :=
      Nat.testBit_lt_two_pow
        (lt_of_lt_of_le ha (Nat.pow_le_pow_right (by norm_num) (by omega)))
    have hwi : w ≤ i := by omega
    have h2 : w + (i - w) = i := by omega
    simp [hbit, hi64, hwi, h2]

/-- Recombining disjoint high and low parts: for `p < 2^w`,
`p ||| (q * 2^w) = q * 2^w + p`. -/
theorem lor_high_low_eq_add (q p w : Nat) (hp : p < 2 ^ w) :
    p ||| q * 2 ^ w = q * 2 ^ w + p := by
  have h := Nat.mul_add_lt_is_or hp q
  rw [Nat.mul_comm (2 ^ w) q] at h
  rw [Nat.lor_comm p (q * 2 ^ w)]
  exact h.symm

/-- The truncated value fits the width. -/
theorem pkt_lt_two_pow_width (p : Nat) (hp : p < 2 ^ 32) :
    p < 2 ^ pktNumWidth p ∧ pktNumWidth p ≤ 64 := by
  unfold pktNumWidth
  split
  · rename_i h
    exact ⟨by omega, by omega⟩
  · split
    · rename_i h
      exact ⟨by omega, by omega⟩
    · exact ⟨hp, by omega⟩

/-- C4.  Fake-ACK packet-number reconstruction.  Concretely: with a
last-seen remote packet number of 0x0132 and a short-header packet
carrying truncated packet number 0x34, the synthesised ACK's Largest
Acknowledged field decodes to 0x0134 (and that is the value
_calc_pkt_number returns and stores).  In general, for a uint64
last-seen value and a truncated value behind it, _calc_pkt_number
keeps the high bits of the last-seen number above the encoded width,
installs the truncated value in the low bits, and adds 1<<width if the
result is still behind. -/
theorem fake_ack_pkt_number_reconstruction :
    fakeAckLargestAcked
      { role := .CLIENT, sessionId := [0x41, 0x42, 0x43, 0x44],
        fakeServerScid := [], lastRemotePktNum := 0x132,
        remotePktNum := 2 } 0x34 = some 0x134 ∧
    (mcastFakeAck
      { role := .CLIENT, sessionId := [0x41, 0x42, 0x43, 0x44],
        fakeServerScid := [], lastRemotePktNum := 0x132,
        remotePktNum := 2 } 0x34).2 = 0x134 ∧
    (∀ lastRemote pktNum : Nat, lastRemote < U64 → pktNum < lastRemote →
      pktNum < 2 ^ 32 →
      calcPktNumber lastRemote pktNum =
        (let w := pktNumWidth pktNum
         let high := lastRemote / 2 ^ w * 2 ^ w
         if high + pktNum < lastRemote then (high + pktNum + 2 ^ w) % U64
         else high + pktNum)) := by
  refine ⟨by decide, by decide, ?_⟩
  intro lastRemote pktNum hlast hbehind h32
  obtain ⟨hfit, hw64⟩ := pkt_lt_two_pow_width pktNum h32
  unfold calcPktNumber
  rw [if_pos hbehind]
  simp only [pktNumMask_eq_two_pow_width]
  rw [and_compl_mask_eq lastRemote (pktNumWidth pktNum) (by
    simpa [U64] using hlast) hw64]
  rw [lor_high_low_eq_add (lastRemote / 2 ^ pktNumWidth pktNum) pktNum
    (pktNumWidth pktNum) hfit]
  have hpow : 2 ^ pktNumWidth pktNum - 1 + 1 = 2 ^ pktNumWidth pktNum :=
    Nat.succ_pred_eq_of_pos (Nat.two_pow_pos _)
  rw [hpow]

/-- Witness for C4's general reconstruction rule at the concrete pair
(0x0132, 0x34): the high byte 0x100 is copied and no extra 1<<8 is
needed, giving 0x0134. -/
theorem fake_ack_pkt_number_reconstruction_witness :
    calcPktNumber 0x132 0x34 = 0x134 := by
  have h := fake_ack_pkt_number_reconstruction.2.2 0x132 0x34
    (by decide) (by decide) (by decide)
  simpa using h

/-! ## The session send loop (nghq_session_send, C5) -/

/-- MAX_BYTES_IN_FLIGHT (nghq.c): 1460 * 10. -/
def MAX_BYTES_IN_FLIGHT : Nat := 1460 * 10

/-- MIN_STREAM_PACKET_OVERHEAD (nghq.c). -/
def MIN_STREAM_PACKET_OVERHEAD : Nat := 27

/-- Result of one ngtcp2_conn_write_stream call as nghq_session_send
distinguishes them: the three recoverable errors (the loop gives up and
returns 0 = NGHQ_OK), any other negative result (TRANSPORT_ERROR), or a
written packet of `pktLen` bytes that consumed `sent` stream bytes
(`pktLen = 0` means the transport produced nothing: SESSION_BLOCKED). -/
inductive WriteStreamResult
  | streamDataBlocked
  | streamShutWr
  | streamNotFound
  | fatalErr
  | written (pktLen sent : Nat)
deriving Repr, DecidableEq

/-- The transport-side oracle of nghq_session_send: the value each
successive ngtcp2_conn_get_bytes_in_flight query returns, the result of
each successive nghq_write_send_buffer call (that function drains the
session's packet buffer through the socket callback; modelled from the
spec as an opaque status), the result of each successive
ngtcp2_conn_write_stream call, and the negotiated max_packet_size. -/
structure SendOracle where
  bytesInFlight : Nat → Nat
  writeSendBuf : Nat → RetCode
  writeStream : Nat → WriteStreamResult
  maxPacketSize : Nat

/-- The mutable state of the send loop: the `transfers` streams (in key
order), the iterator position, the three oracle call counters, and logs
of the write_stream calls (stream id, stream bytes consumed) and of the
on_request_close callbacks (user data). -/
structure SendLoopSt where
  streams : List StreamRec
  idx : Nat
  bifIdx : Nat
  wsbIdx : Nat
  wsIdx : Nat
  writeLog : List (Nat × Nat)
  closedLog : List Nat
deriving Repr, DecidableEq

/-- Return value and final state of nghq_session_send. -/
structure SendResult where
  rv : RetCode
  st : SendLoopSt
deriving Repr, DecidableEq

/-- The packing loop of nghq_session_send: concatenate consecutive send
buffers while the accumulated length is still below
`max_packet_size - MIN_STREAM_PACKET_OVERHEAD`, OR-ing their fin
flags. -/
def packBufs (cap : Nat) : Nat → Bool → List IOBuf → Nat × Bool
  | len, last, [] => (len, last)
  | len, last, b :: rest =>
    if len < cap then packBufs cap (len + b.remaining) (last || b.complete) rest
    else (len, last)

/-- The pop loop after a successful write: drop whole buffers the
transport consumed, returning the rest of the chain and the bytes left
over for a partial buffer. -/
def popSent : List IOBuf → Nat → List IOBuf × Nat
  | [], sent => ([], sent)
  | b :: rest, sent =>
    if b.remaining ≤ sent then popSent rest (sent - b.remaining)
    else (b :: rest, sent)

/-- The `while (it->send_buf == NULL)` iterator-advance: the first stream
at or after `idx` with a non-empty send buffer (none when the table is
exhausted). -/
def findNonEmptyFrom (streams : List StreamRec) : Nat → Nat →
    Option (Nat × StreamRec)
  | 0, _ => none
  | fuel + 1, idx =>
    match streams[idx]? with
    | none => none
    | some s =>
      if s.sendBuf.isEmpty then findNonEmptyFrom streams fuel (idx + 1)
      else some (idx, s)

/-- The per-stream send loop of nghq_session_send, entered with the
status `rv` of the preceding nghq_write_send_buffer call.  Each
iteration: bail out on ERROR/EOF; re-check bytes-in-flight (returning
SESSION_BLOCKED only when `rv` is still NO_MORE_DATA, otherwise
returning `rv`); advance to the next stream with queued data; pack its
buffers; call write_stream; pop or advance the consumed buffers (a
partial buffer inherits the packed fin flag and clears `last_data`);
drain the packet through write_send_buffer; and on fin invoke
on_request_close and mark the stream DONE.  `fuel` bounds the number of
iterations; exhaustion returns the current status. -/
def sessionSendLoop (o : SendOracle) : Nat → RetCode → SendLoopSt →
    SendResult
  | 0, rv, st => ⟨rv, st⟩
  | fuel + 1, rv, st =>
    if rv = .ERROR ∨ rv = .EOF_ then ⟨rv, st⟩
    else if MAX_BYTES_IN_FLIGHT ≤ o.bytesInFlight st.bifIdx then
      if rv = .NO_MORE_DATA then
        ⟨.SESSION_BLOCKED, { st with bifIdx := st.bifIdx + 1 }⟩
      else ⟨rv, { st with bifIdx := st.bifIdx + 1 }⟩
    else
      let st1 := { st with bifIdx := st.bifIdx + 1 }
      match findNonEmptyFrom st1.streams (st1.streams.length + 1) st1.idx with
      | none => ⟨rv, st1⟩
      | some (i, stream) =>
        match stream.sendBuf with
        | [] => ⟨.INTERNAL_ERROR, { st1 with idx := i }⟩
        | b :: brest =>
          let cap := o.maxPacketSize - MIN_STREAM_PACKET_OVERHEAD
          let lastData := (packBufs cap b.remaining b.complete brest).2
          let st2 := { st1 with idx := i, wsIdx := st1.wsIdx + 1 }
          match o.writeStream st1.wsIdx with
          | .streamDataBlocked => ⟨.OK, st2⟩
          | .streamShutWr => ⟨.OK, st2⟩
          | .streamNotFound => ⟨.OK, st2⟩
          | .fatalErr => ⟨.TRANSPORT_ERROR, st2⟩
          | .written pktLen sent =>
            if pktLen = 0 then ⟨.SESSION_BLOCKED, st2⟩
            else
              let popped := popSent stream.sendBuf sent
              let cont := fun (bufs : List IOBuf) (lastData2 : Bool) =>
                let stream2 :=
                  if lastData2 then
                    { stream with sendBuf := bufs, sendState := .DONE }
                  else { stream with sendBuf := bufs }
                let st3 :=
                  { st2 with
                      streams := st2.streams.set i stream2
                      writeLog := st2.writeLog ++ [(stream.streamId, sent)]
                      wsbIdx := st2.wsbIdx + 1
                      closedLog :=
                        if lastData2 then st2.closedLog ++ [stream.userData]
                        else st2.closedLog }
                sessionSendLoop o fuel (o.writeSendBuf st2.wsbIdx) st3
              if 0 < popped.2 then
                match popped.1 with
                | [] => ⟨.INTERNAL_ERROR, st2⟩
                | hb :: tb =>
                  cont ({ hb with pos := hb.pos + popped.2
                                  complete := lastData } :: tb) false
              else cont popped.1 lastData

/-- nghq_session_send (nghq.c): check bytes-in-flight at entry (with
`rv` just initialised to NO_MORE_DATA, so the guarded early return fires
whenever the transport is over the limit), call nghq_write_send_buffer,
position the iterator on stream 0 and run the per-stream loop. -/
def nghqSessionSend (o : SendOracle) (fuel : Nat)
    (streams : List StreamRec) : SendResult :=
  let st0 : SendLoopSt :=
    { streams := streams
      idx := streams.findIdx (fun s => s.streamId == 0)
      bifIdx := 0, wsbIdx := 0, wsIdx := 0
      writeLog := [], closedLog := [] }
  if MAX_BYTES_IN_FLIGHT ≤ o.bytesInFlight 0 then
    ⟨.SESSION_BLOCKED, { st0 with bifIdx := 1 }⟩
  else
    sessionSendLoop o fuel (o.writeSendBuf 0)
      { st0 with bifIdx := 1, wsbIdx := 1 }

/-- A concrete oracle for the C5 counterexample: under the limit at the
entry check, at the limit from the first in-loop re-check on, with
nghq_write_send_buffer reporting OK (it flushed queued packets). -/
def sendOracleCex : SendOracle :=
  { bytesInFlight := fun i => if i = 0 then 0 else MAX_BYTES_IN_FLIGHT
    writeSendBuf := fun _ => .OK
    writeStream := fun _ => .written 0 0
    maxPacketSize := 1500 }

/-- C5 counterexample.  The claim — nghq_session_send returns
NGHQ_SESSION_BLOCKED whenever it observes bytes-in-flight at or above
MAX_BYTES_IN_FLIGHT, also at the re-checks inside the loop — is false:
in this run the entry check passes, nghq_write_send_buffer returns OK,
and the first in-loop re-check observes the limit reached, yet the
function returns NGHQ_OK (the re-check returns SESSION_BLOCKED only when
`rv` is still NO_MORE_DATA). -/
theorem session_send_recheck_not_blocked :
    MAX_BYTES_IN_FLIGHT ≤ sendOracleCex.bytesInFlight 1 ∧
    (nghqSessionSend sendOracleCex 3
      [{ streamInit with streamId := 0 }]).rv = .OK := by
  constructor
  · decide
  · rfl

/-- C5 (amended).  At entry, bytes-in-flight at or above
MAX_BYTES_IN_FLIGHT always yields NGHQ_SESSION_BLOCKED with no stream
data written (the guard `rv == NGHQ_NO_MORE_DATA` is trivially true
there).  At an in-loop re-check, the loop stops writing immediately —
the state is unchanged except for the bytes-in-flight query counter, so
no further write_stream call happens — but the value returned is
SESSION_BLOCKED only when `rv` is still NO_MORE_DATA; otherwise the
status already in hand is returned. -/
theorem session_send_blocked_checks :
    (∀ (o : SendOracle) (fuel : Nat) (streams : List StreamRec),
      MAX_BYTES_IN_FLIGHT ≤ o.bytesInFlight 0 →
      (nghqSessionSend o fuel streams).rv = .SESSION_BLOCKED ∧
      (nghqSessionSend o fuel streams).st.writeLog = [] ∧
      (nghqSessionSend o fuel streams).st.streams = streams) ∧
    (∀ (o : SendOracle) (fuel : Nat) (rv : RetCode) (st : SendLoopSt),
      rv ≠ .ERROR → rv ≠ .EOF_ →
      MAX_BYTES_IN_FLIGHT ≤ o.bytesInFlight st.bifIdx →
      sessionSendLoop o (fuel + 1) rv st =
        ⟨if rv = .NO_MORE_DATA then .SESSION_BLOCKED else rv,
         { st with bifIdx := st.bifIdx + 1 }⟩) := by
  constructor
  · intro o fuel streams hbif
    unfold nghqSessionSend
    simp [hbif]
  · intro o fuel rv st h1 h2 hbif
    unfold sessionSendLoop
    rw [if_neg (by simp [h1, h2]), if_pos hbif]
    split
    · rename_i h3
      simp [h3]
    · simp

/-- Witness for C5's amended theorem: the entry check blocks a concrete
over-the-limit run, and an in-loop re-check with status OK in hand stops
with OK. -/
theorem session_send_blocked_checks_witness :
    (nghqSessionSend
      { bytesInFlight := fun _ => MAX_BYTES_IN_FLIGHT
        writeSendBuf := fun _ => .OK
        writeStream := fun _ => .written 0 0
        maxPacketSize := 1500 } 5
      [{ streamInit with streamId := 0 }]).rv = .SESSION_BLOCKED ∧
    sessionSendLoop sendOracleCex 1 .OK
      { streams := [], idx := 0, bifIdx := 1, wsbIdx := 1, wsIdx := 0,
        writeLog := [], closedLog := [] } =
      ⟨.OK, { streams := [], idx := 0, bifIdx := 2, wsbIdx := 1,
              wsIdx := 0, writeLog := [], closedLog := [] }⟩ := by
  constructor
  · exact (session_send_blocked_checks.1 _ 5 _ (by decide)).1
  · have h := session_send_blocked_checks.2 sendOracleCex 0 .OK
      { streams := [], idx := 0, bifIdx := 1, wsbIdx := 1, wsIdx := 0,
        writeLog := [], closedLog := [] }
      (by decide) (by decide) (by decide)
    simpa using h

/-! ## Request submission (nghq_submit_request, C7) -/

/-- The session state touched by nghq_submit_request and the functions
it calls: role, mode, the two open-transfer ceilings, and the two stream
tables (as lists in key order). -/
structure ReqSession where
  role : Role
  mode : Mode
  maxOpenRequests : Nat
  maxOpenServerPushes : Nat
  transfers : List StreamRec
  promises : List StreamRec
deriving Repr, DecidableEq

/-- nghq_stream_id_map_search / _find by user_data: the first stream
whose user_data matches. -/
def findByUserData (l : List StreamRec) (ud : Nat) : Option StreamRec :=
  l.find? (fun s => s.userData == ud)

/-- Replace the first stream satisfying `p` (the in-place mutation of a
stream found in a table). -/
def replaceFirst (l : List StreamRec) (p : StreamRec → Bool)
    (f : StreamRec → StreamRec) : List StreamRec :=
  match l with
  | [] => []
  | s :: rest => if p s then f s :: rest else s :: replaceFirst rest p f

/-- Remove the first stream satisfying `p`
(nghq_stream_id_map_remove). -/
def removeFirst (l : List StreamRec) (p : StreamRec → Bool) :
    List StreamRec :=
  match l with
  | [] => []
  | s :: rest => if p s then rest else s :: removeFirst rest p

/-- Modelled from the spec: nghq_stream_id_map_num_requests (map.c, not
among the reviewed sources) counts the open requests, i.e. the
client-initiated bidirectional streams (ids ≡ 0 mod 4) in the table. -/
def numRequests (l : List StreamRec) : Nat :=
  (l.filter (fun s => s.streamId % 4 == 0)).length

/-- Modelled from the spec: nghq_stream_id_map_num_pushes (map.c, not
among the reviewed sources) counts the open server pushes in the table,
i.e. the streams carrying a push id. -/
def numPushes (l : List StreamRec) : Nat :=
  (l.filter (fun s => !(s.pushId == STREAM_ID_NONE))).length

/-- nghq_feed_headers (nghq.c).  `hasTrailerHdr` says whether the fed
block contains a `trailer` field (_check_for_trailers);
`openUniResult` is the stream id ngtcp2_conn_open_uni_stream assigns on
the push path (none for failure); `frameResult` is the encoded HEADERS
frame from create_headers_frame (none for failure).  The C function
returns the frame creator's negative code on failure, collapsed to ERROR
here.  On the existing-stream path the send-state switch runs before
frame creation, so a frame-creation failure leaves the advanced state
behind, as in C. -/
def nghqFeedHeaders (sess : ReqSession) (hasTrailerHdr final : Bool)
    (ud : Nat) (openUniResult : Option Nat)
    (frameResult : Option (List Nat)) : RetCode × ReqSession :=
  match findByUserData sess.transfers ud with
  | some stream =>
    let stepped := feedHeadersSendSwitch stream hasTrailerHdr
    match stepped.2 with
    | some e => (e, sess)
    | none =>
      match frameResult with
      | none =>
        (.ERROR,
          { sess with
              transfers :=
                replaceFirst sess.transfers (fun s => s.userData == ud)
                  (fun _ => stepped.1) })
      | some frame =>
        (.OK,
          { sess with
              transfers :=
                replaceFirst sess.transfers (fun s => s.userData == ud)
                  (fun _ =>
                    { stepped.1 with
                        sendBuf := stepped.1.sendBuf ++
                          [{ buf := frame, pos := 0, offset := 0,
                             complete := final }] }) })
  | none =>
    match findByUserData sess.promises ud with
    | none => (.ERROR, sess)
    | some pstream =>
      if sess.maxOpenServerPushes ≤ numPushes sess.transfers then
        (.TOO_MANY_REQUESTS, sess)
      else
        match openUniResult with
        | none => (.INTERNAL_ERROR, sess)
        | some sid =>
          let p1 :=
            { pstream with
                streamId := sid
                sendState := .HDRS
                trailersPromised :=
                  pstream.trailersPromised || hasTrailerHdr }
          match frameResult with
          | none =>
            (.ERROR,
              { sess with
                  promises :=
                    replaceFirst sess.promises
                      (fun s => s.userData == ud) (fun _ => p1) })
          | some frame =>
            let p2 :=
              { p1 with
                  sendBuf := p1.sendBuf ++
                    [{ buf := frame, pos := 0, offset := 0,
                       complete := final }] }
            (.OK,
              { sess with
                  transfers := sess.transfers ++ [p2]
                  promises :=
                    removeFirst sess.promises
                      (fun s => s.pushId == pstream.pushId) })

/-- nghq_feed_payload_data (nghq.c): find the stream by user data,
reject when the send state is past BODY, move it to BODY, and queue the
encoded DATA frame (fin flag `final`).  The C function returns the
frame's length; success is collapsed to OK here (`dataFrameResult` is
the create_data_frame output, assumed allocated). -/
def nghqFeedPayloadData (sess : ReqSession) (final : Bool) (ud : Nat)
    (dataFrameResult : List Nat) : RetCode × ReqSession :=
  match findByUserData sess.transfers ud with
  | none => (.ERROR, sess)
  | some stream =>
    if StreamState.BODY.toNat < stream.sendState.toNat then
      (.REQUEST_CLOSED, sess)
    else
      (.OK,
        { sess with
            transfers :=
              replaceFirst sess.transfers (fun s => s.userData == ud)
                (fun _ =>
                  { stream with
                      sendState := .BODY
                      sendBuf := stream.sendBuf ++
                        [{ buf := dataFrameResult, pos := 0, offset := 0,
                           complete := final }] }) })

/-- nghq_submit_request (nghq.c).  Non-clients are refused; a multicast
client only re-binds stream 4's user data; a unicast client below the
request ceiling opens a bidirectional stream (`openBidiResult` is the id
the transport assigns, none for failure), adds it to `transfers`, feeds
the headers with final = 0, then either feeds the body (final again 0),
or — when `final` is set and there is no body — removes and frees the
new stream again. -/
def nghqSubmitRequest (sess : ReqSession) (hasTrailerHdr : Bool)
    (bodyLen : Nat) (final : Bool) (ud : Nat)
    (openBidiResult : Option Nat) (hdrFrameResult : Option (List Nat))
    (dataFrameResult : List Nat) : RetCode × ReqSession :=
  if sess.role ≠ .CLIENT then (.CLIENT_ONLY, sess)
  else if sess.mode = .MULTICAST then
    (.OK,
      { sess with
          transfers :=
            replaceFirst sess.transfers (fun s => s.streamId == 4)
              (fun s => { s with userData := ud }) })
  else if sess.maxOpenRequests ≤ numRequests sess.transfers then
    (.TOO_MANY_REQUESTS, sess)
  else
    match openBidiResult with
    | none => (.OUT_OF_MEMORY, sess)
    | some sid =>
      let sess1 :=
        { sess with
            transfers := sess.transfers ++
              [{ streamInit with streamId := sid, userData := ud }] }
      let fh := nghqFeedHeaders sess1 hasTrailerHdr false ud none
        hdrFrameResult
      match fh.1 with
      | .OK =>
        if 0 < bodyLen then
          nghqFeedPayloadData fh.2 false ud dataFrameResult
        else if final then
          (.OK,
            { fh.2 with
                transfers :=
                  removeFirst fh.2.transfers
                    (fun s => s.streamId == sid) })
        else (.OK, fh.2)
      | e =>
        (e,
          { fh.2 with
              transfers :=
                removeFirst fh.2.transfers (fun s => s.streamId == sid) })

/-- The multicast client session of the C7 counterexample: the initial
request stream 0 and the push-promise stream 4. -/
def reqSessionCex : ReqSession :=
  { role := .CLIENT, mode := .MULTICAST, maxOpenRequests := 10,
    maxOpenServerPushes := 10,
    transfers := [{ streamInit with streamId := 0 },
                  { streamInit with streamId := 4 }],
    promises := [] }

/-- C7 counterexample.  The claim — every successful nghq_submit_request
on a client session opens a new bidirectional stream and queues a
HEADERS frame on it, optionally followed by a DATA frame and a fin mark
— is false twice over.  On a multicast client the call succeeds yet
opens no stream and queues nothing: it only re-binds stream 4's user
data.  And on a unicast client with `final` set and no body, the call
succeeds but the freshly opened stream (with its queued HEADERS frame)
is removed and freed again before anything is sent, so no fin-marked
frame is ever queued. -/
theorem submit_request_claim_fails :
    (nghqSubmitRequest reqSessionCex false 0 false 77 (some 8)
        (some [0x01, 0x00]) []).1 = .OK ∧
    (nghqSubmitRequest reqSessionCex false 0 false 77 (some 8)
        (some [0x01, 0x00]) []).2.transfers =
      [{ streamInit with streamId := 0 },
       { streamInit with streamId := 4, userData := 77 }] ∧
    (nghqSubmitRequest
      { role := .CLIENT, mode := .UNICAST, maxOpenRequests := 10,
        maxOpenServerPushes := 10,
        transfers := [{ streamInit with streamId := 0 }], promises := [] }
      false 0 true 77 (some 4) (some [0x01, 0x00]) []) =
      (.OK, { role := .CLIENT, mode := .UNICAST, maxOpenRequests := 10,
              maxOpenServerPushes := 10,
              transfers := [{ streamInit with streamId := 0 }],
              promises := [] }) := by
  refine ⟨by decide, by decide, by decide⟩

/-- `find?` by user data lands on a freshly appended stream when no
existing stream carries that user data. -/
theorem findByUserData_append_fresh (l : List StreamRec) (s : StreamRec)
    (ud : Nat) (h : ∀ t ∈ l, t.userData ≠ ud) (hs : s.userData = ud) :
    findByUserData (l ++ [s]) ud = some s := by
  induction l with
  | nil => simp [findByUserData, List.find?, hs]
  | cons t rest ih =>
    have ht : (t.userData == ud) = false := by
      simp [h t (List.mem_cons_self t rest)]
    simp only [findByUserData, List.cons_append, List.find?, ht]
    exact ih (fun u hu => h u (List.mem_cons_of_mem t hu))

/-- Replacing by user data only touches a freshly appended stream when
no existing stream carries that user data. -/
theorem replaceFirst_append_fresh (l : List StreamRec) (s : StreamRec)
    (ud : Nat) (f : StreamRec → StreamRec)
    (h : ∀ t ∈ l, t.userData ≠ ud) (hs : s.userData = ud) :
    replaceFirst (l ++ [s]) (fun t => t.userData == ud) f = l ++ [f s] := by
  induction l with
  | nil => simp [replaceFirst, hs]
  | cons t rest ih =>
    have ht : (t.userData == ud) = false := by
      simp [h t (List.mem_cons_self t rest)]
    have ih' := ih (fun u hu => h u (List.mem_cons_of_mem t hu))
    simp [replaceFirst, List.append_eq, ht, ih']

/-- Removing by stream id only drops a freshly appended stream when no
existing stream carries that id. -/
theorem removeFirst_append_fresh (l : List StreamRec) (s : StreamRec)
    (sid : Nat) (h : ∀ t ∈ l, t.streamId ≠ sid) (hs : s.streamId = sid) :
    removeFirst (l ++ [s]) (fun t => t.streamId == sid) = l := by
  induction l with
  | nil => simp [removeFirst, hs]
  | cons t rest ih =>
    have ht : (t.streamId == sid) = false := by
      simp [h t (List.mem_cons_self t rest)]
    have ih' := ih (fun u hu => h u (List.mem_cons_of_mem t hu))
    simp [removeFirst, List.append_eq, ht, ih']

/-- C7 (amended).  A non-client session is refused with NGHQ_CLIENT_ONLY
and no state change.  A multicast client's nghq_submit_request succeeds
but only re-binds stream 4's user data — no stream is opened and no
frame queued.  A unicast client below the request ceiling (with fresh
user_data and a transport-assigned fresh stream id): with no body and
final clear it opens a new bidirectional stream and queues exactly one
HEADERS frame on it (send state HDRS, no fin mark); with a body it
additionally queues one DATA frame (send state BODY) that is never
fin-marked whatever the caller's final flag — the body path passes
final = 0 to nghq_feed_payload_data, so the conjunct holds for both
values of `fin`; with final set and no body the new stream is removed
again and the table is left as it was. -/
theorem submit_request_behaviour :
    (∀ (sess : ReqSession) (ht : Bool) (bl : Nat) (fin : Bool) (ud : Nat)
        (ob : Option Nat) (hf : Option (List Nat)) (df : List Nat),
      sess.role ≠ .CLIENT →
      nghqSubmitRequest sess ht bl fin ud ob hf df =
        (.CLIENT_ONLY, sess)) ∧
    (∀ (sess : ReqSession) (ht : Bool) (bl : Nat) (fin : Bool) (ud : Nat)
        (ob : Option Nat) (hf : Option (List Nat)) (df : List Nat),
      sess.role = .CLIENT → sess.mode = .MULTICAST →
      nghqSubmitRequest sess ht bl fin ud ob hf df =
        (.OK,
          { sess with
              transfers :=
                replaceFirst sess.transfers (fun s => s.streamId == 4)
                  (fun s => { s with userData := ud }) })) ∧
    (∀ (sess : ReqSession) (ht : Bool) (ud sid : Nat)
        (frame df : List Nat),
      sess.role = .CLIENT → sess.mode = .UNICAST →
      numRequests sess.transfers < sess.maxOpenRequests →
      (∀ t ∈ sess.transfers, t.userData ≠ ud) →
      nghqSubmitRequest sess ht 0 false ud (some sid) (some frame) df =
        (.OK,
          { sess with
              transfers := sess.transfers ++
                [{ streamInit with
                     streamId := sid
                     userData := ud
                     sendState := .HDRS
                     trailersPromised := ht
                     sendBuf := [{ buf := frame, pos := 0, offset := 0,
                                   complete := false }] }] })) ∧
    (∀ (sess : ReqSession) (ht fin : Bool) (bl ud sid : Nat)
        (frame df : List Nat),
      sess.role = .CLIENT → sess.mode = .UNICAST →
      numRequests sess.transfers < sess.maxOpenRequests →
      (∀ t ∈ sess.transfers, t.userData ≠ ud) → 0 < bl →
      nghqSubmitRequest sess ht bl fin ud (some sid) (some frame) df =
        (.OK,
          { sess with
              transfers := sess.transfers ++
                [{ streamInit with
                     streamId := sid
                     userData := ud
                     sendState := .BODY
                     trailersPromised := ht
                     sendBuf := [{ buf := frame, pos := 0, offset := 0,
                                   complete := false },
                                 { buf := df, pos := 0, offset := 0,
                                   complete := false }] }] })) ∧
    (∀ (sess : ReqSession) (ht : Bool) (ud sid : Nat)
        (frame df : List Nat),
      sess.role = .CLIENT → sess.mode = .UNICAST →
      numRequests sess.transfers < sess.maxOpenRequests →
      (∀ t ∈ sess.transfers, t.userData ≠ ud) →
      (∀ t ∈ sess.transfers, t.streamId ≠ sid) →
      nghqSubmitRequest sess ht 0 true ud (some sid) (some frame) df =
        (.OK, { sess with transfers := sess.transfers })) := by
  have hstep : ∀ (sess : ReqSession) (ht : Bool) (ud sid : Nat)
      (frame : List Nat),
      (∀ t ∈ sess.transfers, t.userData ≠ ud) →
      nghqFeedHeaders
        { sess with
            transfers := sess.transfers ++
              [{ streamInit with streamId := sid, userData := ud }] }
        ht false ud none (some frame) =
      (.OK,
        { sess with
            transfers := sess.transfers ++
              [{ streamInit with
                   streamId := sid
                   userData := ud
                   sendState := .HDRS
                   trailersPromised := ht
                   sendBuf := [{ buf := frame, pos := 0, offset := 0,
                                 complete := false }] }] }) := by
    intro sess ht ud sid frame hfresh
    unfold nghqFeedHeaders
    rw [show findByUserData
        ({ sess with
            transfers := sess.transfers ++
              [{ streamInit with streamId := sid, userData := ud }]
          : ReqSession }).transfers ud =
        some { streamInit with streamId := sid, userData := ud } from
      findByUserData_append_fresh sess.transfers _ ud hfresh rfl]
    simp only [feedHeadersSendSwitch, streamInit]
    rw [replaceFirst_append_fresh sess.transfers _ ud _ hfresh rfl]
    rfl
  refine ⟨?_, ?_, ?_, ?_, ?_⟩
  · intro sess ht bl fin ud ob hf df hrole
    unfold nghqSubmitRequest
    simp [hrole]
  · intro sess ht bl fin ud ob hf df hrole hmode
    unfold nghqSubmitRequest
    simp [hrole, hmode]
  · intro sess ht ud sid frame df hrole hmode hcap hfresh
    unfold nghqSubmitRequest
    rw [if_neg (by simp [hrole]), if_neg (by simp [hmode]),
        if_neg (Nat.not_le.mpr hcap)]
    simp only [hstep sess ht ud sid frame hfresh]
    rw [if_neg (by decide), if_neg (by decide)]
  · intro sess ht fin bl ud sid frame df hrole hmode hcap hfresh hbl
    unfold nghqSubmitRequest
    rw [if_neg (by simp [hrole]), if_neg (by simp [hmode]),
        if_neg (Nat.not_le.mpr hcap)]
    simp only [hstep sess ht ud sid frame hfresh]
    rw [if_pos hbl]
    unfold nghqFeedPayloadData
    rw [show findByUserData
        ({ sess with
            transfers := sess.transfers ++
              [{ streamInit with
                   streamId := sid
                   userData := ud
                   sendState := .HDRS
                   trailersPromised := ht
                   sendBuf := [{ buf := frame, pos := 0, offset := 0,
                                 complete := false }] }]
          : ReqSession }).transfers ud =
        some { streamInit with
                 streamId := sid
                 userData := ud
                 sendState := .HDRS
                 trailersPromised := ht
                 sendBuf := [{ buf := frame, pos := 0, offset := 0,
                               complete := false }] } from
      findByUserData_append_fresh sess.transfers _ ud hfresh rfl]
    simp only []
    rw [if_neg (by decide)]
    rw [replaceFirst_append_fresh sess.transfers _ ud _ hfresh rfl]
    rfl
  · intro sess ht ud sid frame df hrole hmode hcap hfresh hfreshId
    unfold nghqSubmitRequest
    rw [if_neg (by simp [hrole]), if_neg (by simp [hmode]),
        if_neg (Nat.not_le.mpr hcap)]
    simp only [hstep sess ht ud sid frame hfresh]
    rw [if_neg (by simp), if_pos trivial]
    rw [removeFirst_append_fresh sess.transfers _ sid hfreshId rfl]

/-- Witness for C7's amended theorem at concrete sessions: a server is
refused; a multicast client merely re-binds stream 4; a unicast client
gets the new stream with its queued HEADERS frame; and a unicast client
submitting a body with final SET still gets the DATA frame queued
without a fin mark (complete = false on both queued buffers). -/
theorem submit_request_behaviour_witness :
    nghqSubmitRequest
      { role := .SERVER, mode := .UNICAST, maxOpenRequests := 2,
        maxOpenServerPushes := 2, transfers := [], promises := [] }
      false 0 false 7 none none [] =
      (.CLIENT_ONLY,
        { role := .SERVER, mode := .UNICAST, maxOpenRequests := 2,
          maxOpenServerPushes := 2, transfers := [], promises := [] }) ∧
    (nghqSubmitRequest reqSessionCex false 0 false 77 (some 8)
        (some [0x01, 0x00]) []).1 = .OK ∧
    nghqSubmitRequest
      { role := .CLIENT, mode := .UNICAST, maxOpenRequests := 2,
        maxOpenServerPushes := 2, transfers := [], promises := [] }
      false 0 false 7 (some 4) (some [0x01, 0x00]) [] =
      (.OK,
        { role := .CLIENT, mode := .UNICAST, maxOpenRequests := 2,
          maxOpenServerPushes := 2,
          transfers :=
            [{ streamInit with
                 streamId := 4
                 userData := 7
                 sendState := .HDRS
                 trailersPromised := false
                 sendBuf := [{ buf := [0x01, 0x00], pos := 0, offset := 0,
                               complete := false }] }],
          promises := [] }) ∧
    nghqSubmitRequest
      { role := .CLIENT, mode := .UNICAST, maxOpenRequests := 2,
        maxOpenServerPushes := 2, transfers := [], promises := [] }
      false 3 true 7 (some 4) (some [0x01, 0x00]) [0x00, 0x01, 0xaa] =
      (.OK,
        { role := .CLIENT, mode := .UNICAST, maxOpenRequests := 2,
          maxOpenServerPushes := 2,
          transfers :=
            [{ streamInit with
                 streamId := 4
                 userData := 7
                 sendState := .BODY
                 trailersPromised := false
                 sendBuf := [{ buf := [0x01, 0x00], pos := 0, offset := 0,
                               complete := false },
                             { buf := [0x00, 0x01, 0xaa], pos := 0,
                               offset := 0, complete := false }] }],
          promises := [] }) := by
  refine ⟨submit_request_behaviour.1 _ false 0 false 7 none none []
      (by decide), ?_, ?_, ?_⟩
  · rw [submit_request_behaviour.2.1 reqSessionCex false 0 false 77
      (some 8) (some [0x01, 0x00]) [] rfl rfl]
  · have h := submit_request_behaviour.2.2.1
      { role := .CLIENT, mode := .UNICAST, maxOpenRequests := 2,
        maxOpenServerPushes := 2, transfers := [], promises := [] }
      false 7 4 [0x01, 0x00] [] rfl rfl (by decide)
      (by intro t htv; simp at htv)
    simpa using h
  · have h := submit_request_behaviour.2.2.2.1
      { role := .CLIENT, mode := .UNICAST, maxOpenRequests := 2,
        maxOpenServerPushes := 2, transfers := [], promises := [] }
      false true 3 7 4 [0x01, 0x00] [0x00, 0x01, 0xaa] rfl rfl (by decide)
      (by intro t htv; simp at htv) (by decide)
    simpa using h

end Nghq
